import Mathlib

/-!
Verification development for the Monexa fintech assistant
(`chatbot.py`, `backend/nova_client.py`).

The Python code is shallowly embedded: strings are Lean `String`s, Python
string operations (`split`, `strip`, `lower`, the ordinal-marker regex) are
re-implemented on `List Char` with Python semantics, Streamlit session
state is an explicit `SessionState` record, and every language-model call
is an oracle function supplied as a parameter.  A turn of the chat loop
(the `if user_input:` block) is the function `step`; it returns `none`
exactly where the Python code would raise (the `questions[0]` IndexError).
-/

namespace Monexa

/-- Python `\s` whitespace class (ASCII): space, tab, newline, carriage
return, vertical tab, form feed. -/
def isPySpace (c : Char) : Bool :=
  c == ' ' || c == '\t' || c == '\n' || c == '\r' || c == '\x0b' || c == '\x0c'

/-- Python `str.strip()` on ASCII text: drop leading and trailing whitespace. -/
def pyTrim (s : String) : String :=
  String.mk (((s.toList.dropWhile isPySpace).reverse.dropWhile isPySpace).reverse)

/-- Python `str.lower()` (ASCII). -/
def pyLower (s : String) : String :=
  String.mk (s.toList.map Char.toLower)

/-- Split a character list at every occurrence of `sep`, Python
`str.split(sep)` semantics: the empty list yields one empty group. -/
def splitCharAux (sep : Char) : List Char → List (List Char)
  | [] => [[]]
  | c :: cs =>
    match splitCharAux sep cs with
    | [] => [[]]
    | g :: gs => if c == sep then [] :: g :: gs else (c :: g) :: gs

/-- Python `s.split(sep)` for a one-character separator. -/
def pySplit (sep : Char) (s : String) : List String :=
  (splitCharAux sep s.toList).map fun g => String.mk g

/-- Python `"sep" in line` for a one-character pattern. -/
def lineHasColon (line : String) : Bool :=
  line.toList.contains ':'

/-- Python `line.split(":", 1)`: the part before the first colon and the
rest of the line after it. -/
def splitFirstColon (line : String) : String × String :=
  let cs := line.toList
  (String.mk (cs.takeWhile fun c => c != ':'),
   String.mk ((cs.dropWhile fun c => c != ':').drop 1))

/-- Python `re.sub(r"^\s*\d+[\.\)]?\s*", "", s)`: if the anchored pattern
matches (it needs at least one digit), remove leading whitespace, the run
of digits, one optional `.` or `)`, and the whitespace after it; otherwise
return the string unchanged. -/
def stripOrdinal (s : String) : String :=
  let afterWs := s.toList.dropWhile isPySpace
  let digits := afterWs.takeWhile Char.isDigit
  if digits = [] then s
  else
    let afterDigits := afterWs.dropWhile Char.isDigit
    let afterPunct :=
      match afterDigits with
      | c :: rest => if c == '.' || c == ')' then rest else c :: rest
      | [] => []
    String.mk (afterPunct.dropWhile isPySpace)

/-- `re.sub(ordinal, "", title_part).strip()` as in `parse_unique_suggestions`. -/
def cleanTitle (t : String) : String :=
  pyTrim (stripOrdinal t)

/-- A parsed suggestion: `{"title": ..., "explanation": ...}`. -/
structure Suggestion where
  title : String
  explanation : String
deriving DecidableEq

/-- The loop body of `parse_unique_suggestions`, with the mutable
`existing_titles_lower` set carried as an explicit list of keys. -/
def pusGo : List String → List String → List Suggestion
  | [], _ => []
  | line :: rest, seen =>
    if lineHasColon line = true then
      let clean := cleanTitle (splitFirstColon line).1
      let key := pyLower clean
      if key ≠ "" ∧ key ∉ seen then
        { title := clean, explanation := pyTrim (splitFirstColon line).2 } ::
          pusGo rest (key :: seen)
      else pusGo rest seen
    else pusGo rest seen

/-- `parse_unique_suggestions` from `chatbot.py`: split the text on
newlines, keep colon-delimited lines, clean the title, deduplicate by
lowercased title with a truthiness check on the key. -/
def parse_unique_suggestions (text : String) : List Suggestion :=
  pusGo (pySplit '\n' text) []

/-! ## Spec-side renderings of the suggestion-parsing contract

`parseLineClaim` follows the words of the specification (section 4.5 /
claim C1): a line qualifies only if it contains a colon, the part before
the first colon (with a leading ordinal marker stripped) is the title, the
rest is the explanation.  `parseLineAmended` is the amended version that
matches the code: title and explanation are additionally
whitespace-trimmed and a line whose cleaned title is empty is dropped. -/

/-- One line, parsed exactly as the spec's words describe it. -/
def parseLineClaim (line : String) : Option Suggestion :=
  if lineHasColon line = true then
    some { title := stripOrdinal (splitFirstColon line).1
           explanation := (splitFirstColon line).2 }
  else none

/-- One line, parsed as the code actually does: trimmed title and
explanation, and `none` when the cleaned title is empty. -/
def parseLineAmended (line : String) : Option Suggestion :=
  if lineHasColon line = true then
    let clean := cleanTitle (splitFirstColon line).1
    if pyLower clean = "" then none
    else some { title := clean, explanation := pyTrim (splitFirstColon line).2 }
  else none

/-- First-occurrence-wins deduplication on the lowercased title,
with the already-seen keys as an explicit accumulator. -/
def dedupFirstWins : List String → List Suggestion → List Suggestion
  | _, [] => []
  | seen, sug :: rest =>
    if pyLower sug.title ∈ seen then dedupFirstWins seen rest
    else sug :: dedupFirstWins (pyLower sug.title :: seen) rest

/-- The suggestion-parsing pipeline exactly as claim C1 words it. -/
def parseSuggestionsClaim (text : String) : List Suggestion :=
  dedupFirstWins [] ((pySplit '\n' text).filterMap parseLineClaim)

/-- The amended pipeline: like `parseSuggestionsClaim` but with trimmed
fields and empty cleaned titles dropped before deduplication. -/
def parseSuggestionsAmended (text : String) : List Suggestion :=
  dedupFirstWins [] ((pySplit '\n' text).filterMap parseLineAmended)

/-! ## Static reference data (`get_static_bank_info`) -/

/-- One `{"title": ..., "explanation": ...}` product entry. -/
structure BankOption where
  title : String
  explanation : String
deriving DecidableEq

/-- The dictionary returned by `get_static_bank_info`. -/
structure BankInfo where
  title : String
  disclaimer : String
  options : List BankOption
deriving DecidableEq

/-- `get_static_bank_info` from `chatbot.py`: hardcoded representative
data for two intents, `none` for every other intent. -/
def get_static_bank_info (intent : String) : Option BankInfo :=
  if intent = "Debt Management" then
    some { title := "Indicative Loan Options"
           disclaimer := "Note: These are estimated interest rates and terms. Please verify directly with banks for current, personalized offers."
           options :=
             [{ title := "Personal Loan"
                explanation := "Typically 10.5% - 16% p.a. Flexible use, shorter tenure (1-5 years)." },
              { title := "Home Loan"
                explanation := "Typically 8.5% - 9.5% p.a. For property purchase, long tenure (15-30 years)." },
              { title := "Car Loan"
                explanation := "Typically 9% - 11% p.a. For new or used cars, tenure up to 7 years." }] }
  else if intent = "Saving/Investing" then
    some { title := "Indicative Fixed Deposit Rates"
           disclaimer := "Note: These are sample rates for general citizens. Senior citizen rates are often higher. Please verify with the bank."
           options :=
             [{ title := "Major Private Bank FD (e.g., HDFC/ICICI)"
                explanation := "Approx. 7.0% - 7.25% p.a. for 1-2 year tenures." },
              { title := "Major Public Bank FD (e.g., SBI)"
                explanation := "Approx. 6.8% - 7.10% p.a. for 1-2 year tenures." }] }
  else none

/-! ## Session state and the conversation step

`SessionState` mirrors the keys set by `initialize_session_state`.
`Oracle` supplies the text each `ask_nova` call site would receive from
the language model (empty string = gateway failure surfaced by
`get_nova_response`), plus the best-effort news fetch. -/

/-- One chat message: `{"role": ..., "content": ...}`. -/
structure Message where
  role : String
  content : String
deriving DecidableEq

/-- One news article returned by `fetch_news`. -/
structure NewsItem where
  title : String
  url : String
deriving DecidableEq

/-- The Streamlit session state, as initialized by
`initialize_session_state` and mutated by the chat loop. -/
structure SessionState where
  messages : List Message
  questions : List String
  answers : List String
  suggestions : List Suggestion
  goal : Option String
  broad_intent : Option String
  risk_tolerance : Option String
  awaiting_confirmation : Bool
  current_question_index : Nat
  conversation_complete : Bool
deriving DecidableEq

/-- The defaults written by `initialize_session_state`. -/
def initialState : SessionState :=
  { messages := []
    questions := []
    answers := []
    suggestions := []
    goal := none
    broad_intent := none
    risk_tolerance := none
    awaiting_confirmation := false
    current_question_index := 0
    conversation_complete := false }

/-- Responses of the external collaborators, one field per call site:
`classify` is `get_broad_intent_from_nova`, `plan` the question prompt,
`suggest` the suggestion prompt (given intent, context summary and the
injected static data), `followupAnswer` the follow-up prompt, and `news`
is `fetch_news`. -/
structure Oracle where
  classify : String → String
  plan : String → String → String
  suggest : String → String → Option BankInfo → String
  followupAnswer : String → List String → String
  news : String → List NewsItem

/-- Python truthiness of the `goal` field (`None` and `""` are falsy). -/
def isFalsy : Option String → Bool
  | none => true
  | some s => s == ""

/-- Which of the four stage bodies executed during a turn. -/
inductive Stage
  | goalSetting
  | answerGathering
  | suggesting
  | followupQA
deriving DecidableEq

/-- Result of one turn: the new session state and the stages that fired. -/
structure StepResult where
  state : SessionState
  fired : List Stage
deriving DecidableEq

/-- The fixed decline message of the Out of Domain branch. -/
def oodMessage : String :=
  "I\x27m sorry, but I can only assist with personal finance topics like saving, loans, and budgeting. How can I help you with your finances?"

/-- The fixed greeting message of the General Inquiry branch. -/
def giMessage : String :=
  "Hello! I\x27m here to help you with your financial goals. What would you like to achieve? For example, you can tell me \x27I want to save for a vacation\x27 or \x27I need to understand my loan options.\x27"

/-- The rephrase request emitted when the question text comes back empty. -/
def rephraseMessage : String :=
  "I\x27m having a little trouble thinking of questions right now. Could you please rephrase your goal?"

/-- `"Out of Domain" in intent` / `"General Inquiry" in intent`:
Python substring containment. -/
def strContains (s pat : String) : Bool :=
  (List.range (s.toList.length + 1)).any fun i =>
    pat.toList.isPrefixOf (s.toList.drop i)

/-- `[q.strip() for q in questions_text.split("\n") if q.strip()]`. -/
def planLines (t : String) : List String :=
  ((pySplit '\n' t).map pyTrim).filter fun q => q != ""

/-- `f"Q: {q}\nA: {a}\n"` accumulation over `zip(questions, answers)`. -/
def qaSummary : List (String × String) → String
  | [] => ""
  | (q, a) :: rest => "Q: " ++ q ++ "\nA: " ++ a ++ "\n" ++ qaSummary rest

/-- The `context_summary` string built at the start of stage 3. -/
def contextSummary (s : SessionState) : String :=
  "Goal: " ++ s.goal.getD "" ++ "\n" ++ qaSummary (s.questions.zip s.answers)

/-- The numbered `f"{i+1}. *{title}*: {explanation}\n"` lines of the
suggestion response, starting the enumeration at `i`. -/
def numberedSuggestions : Nat → List Suggestion → String
  | _, [] => ""
  | i, sug :: rest =>
    toString (i + 1) ++ ". *" ++ sug.title ++ "*: " ++ sug.explanation ++ "\n"
      ++ numberedSuggestions (i + 1) rest

/-- The `*Relevant News:*` block, empty when no articles were fetched. -/
def newsSection : List NewsItem → String
  | [] => ""
  | items =>
    "\n\n*Relevant News:*\n" ++
      items.foldl (fun acc n => acc ++ "- [" ++ n.title ++ "](" ++ n.url ++ ")\n") ""

/-- The trailing disclaimer block when static data with a truthy
disclaimer was injected. -/
def disclaimerSection : Option BankInfo → String
  | none => ""
  | some info => if info.disclaimer != "" then "\n\n*" ++ info.disclaimer ++ "*" else ""

/-- The full assistant message composed in stage 3. -/
def suggestionResponse (sugs : List Suggestion) (articles : List NewsItem)
    (staticData : Option BankInfo) : String :=
  "Based on our conversation, here are a few tailored suggestions for you:\n\n"
    ++ numberedSuggestions 0 sugs ++ newsSection articles ++ disclaimerSection staticData

/-- STAGE 1 of the chat loop (initial goal setting).  The user message has
already been appended.  Returns `none` where Python raises: when the
question text is non-empty but every line is whitespace,
`st.session_state.questions[0]` is an IndexError. -/
def stage1 (o : Oracle) (s : SessionState) (input : String) : Option StepResult :=
  let s := { s with goal := some input }
  let intent := o.classify input
  let s := { s with broad_intent := some intent }
  if strContains intent "Out of Domain" = true then
    some { state := { s with goal := none
                             messages := s.messages ++ [{ role := "assistant", content := oodMessage }]
                             current_question_index := 0 }
           fired := [Stage.goalSetting] }
  else if strContains intent "General Inquiry" = true then
    some { state := { s with goal := none
                             messages := s.messages ++ [{ role := "assistant", content := giMessage }]
                             current_question_index := 0 }
           fired := [Stage.goalSetting] }
  else
    let qtext := o.plan input intent
    if qtext != "" then
      match planLines qtext with
      | [] => none
      | q0 :: rest =>
        some { state := { s with questions := rest
                                 messages := s.messages ++ [{ role := "assistant", content := q0 }]
                                 current_question_index := 0 }
               fired := [Stage.goalSetting] }
    else
      some { state := { s with messages := s.messages ++ [{ role := "assistant", content := rephraseMessage }]
                               current_question_index := 0 }
             fired := [Stage.goalSetting] }

/-- STAGES 3 and 4 of the chat loop: the `if conversation_complete and not
suggestions` block and its `elif` partner.  Reached either directly on a
fresh turn or by fall-through from the completing stage-2 branch. -/
def stage34 (o : Oracle) (s : SessionState) (input : String)
    (fired : List Stage) : StepResult :=
  if s.conversation_complete = true ∧ s.suggestions = [] then
    let staticData := get_static_bank_info (s.broad_intent.getD "")
    let stext := o.suggest (s.broad_intent.getD "") (contextSummary s) staticData
    let finalSuggestions := parse_unique_suggestions stext
    let response := suggestionResponse finalSuggestions (o.news (s.goal.getD "")) staticData
    { state := { s with suggestions := finalSuggestions
                        messages := s.messages ++ [{ role := "assistant", content := response }]
                        questions := []
                        answers := [] }
      fired := fired ++ [Stage.suggesting] }
  else if s.conversation_complete = true ∧ s.suggestions ≠ [] then
    let response := o.followupAnswer input (s.suggestions.map Suggestion.title)
    { state := { s with messages := s.messages ++ [{ role := "assistant", content := response }] }
      fired := fired ++ [Stage.followupQA] }
  else { state := s, fired := fired }

/-- One turn of the `if user_input:` block: append the user message, then
run stage 1 (when `goal` is falsy), else stage 2 (when not complete and
questions are queued, falling through to stages 3/4 when the last answer
arrives), else stages 3/4. -/
def step (o : Oracle) (s : SessionState) (input : String) : Option StepResult :=
  let s := { s with messages := s.messages ++ [{ role := "user", content := input }] }
  if isFalsy s.goal = true then
    stage1 o s input
  else if s.conversation_complete = false ∧ s.questions ≠ [] then
    let s := { s with answers := s.answers ++ [input]
                      current_question_index := s.current_question_index + 1 }
    if s.current_question_index < s.questions.length then
      some { state := { s with messages := s.messages ++
                         [{ role := "assistant"
                            content := s.questions.getD s.current_question_index "" }] }
             fired := [Stage.answerGathering] }
    else
      some (stage34 o { s with conversation_complete := true } input [Stage.answerGathering])
  else
    some (stage34 o s input [])

/-- The sidebar reset button: delete every session key except the
client, after which `initialize_session_state` rebuilds the defaults. -/
def resetConversation (_s : SessionState) : SessionState :=
  initialState

/-- The states a session can be in: the defaults, plus everything
reachable by chat turns (crashing turns produce no state) and resets. -/
inductive Reachable : SessionState → Prop
  | init : Reachable initialState
  | chat {s : SessionState} (o : Oracle) (input : String) (r : StepResult) :
      Reachable s → step o s input = some r → Reachable r.state
  | reset {s : SessionState} : Reachable s → Reachable (resetConversation s)

/-! ## The gateway wrapper (`backend/nova_client.py`) -/

/-- `get_nova_response` from `backend/nova_client.py`: the outcome of the
`client.converse` call is either a text completion or a raised exception;
on an exception the wrapper logs and returns the empty string. -/
def get_nova_response (outcome : Except String String) : String :=
  match outcome with
  | Except.ok t => t
  | Except.error _ => ""

/-! ## Invariant and concrete scenarios -/

/-- The question-index invariant that actually holds of the code: while
the conversation is not complete, either no questions are queued and the
index is 0, or the index is strictly below the number of queued
questions. -/
def IndexInv (s : SessionState) : Prop :=
  s.conversation_complete = false →
    (s.questions = [] ∧ s.current_question_index = 0) ∨
      s.current_question_index < s.questions.length

/-- Fallback step result used to read off concrete traces. -/
def dfltResult : StepResult :=
  { state := initialState, fired := [] }

/-- A model that classifies every goal as Retirement Planning, plans an
acknowledgment plus one question, and produces one colon-delimited
suggestion. -/
def cexOracle : Oracle :=
  { classify := fun _ => "Retirement Planning"
    plan := fun _ _ => "Ack line\nQ2"
    suggest := fun _ _ _ => "A: B"
    followupAnswer := fun _ _ => "follow"
    news := fun _ => [] }

/-- A model whose question generation comes back empty (gateway failure
surfaced as the empty string). -/
def emptyPlanOracle : Oracle :=
  { classify := fun _ => "Saving/Investing"
    plan := fun _ _ => ""
    suggest := fun _ _ _ => ""
    followupAnswer := fun _ _ => ""
    news := fun _ => [] }

/-- A model whose intent classification comes back empty (gateway failure
surfaced as the empty string) while question generation succeeds. -/
def emptyClassifyOracle : Oracle :=
  { classify := fun _ => ""
    plan := fun _ _ => "Ack line\nQ2"
    suggest := fun _ _ _ => ""
    followupAnswer := fun _ _ => ""
    news := fun _ => [] }

/-- A model that classifies every goal as Out of Domain. -/
def oodOracle : Oracle :=
  { classify := fun _ => "Out of Domain"
    plan := fun _ _ => ""
    suggest := fun _ _ _ => ""
    followupAnswer := fun _ _ => ""
    news := fun _ => [] }

/-- A model that classifies every goal as General Inquiry. -/
def giOracle : Oracle :=
  { classify := fun _ => "General Inquiry"
    plan := fun _ _ => ""
    suggest := fun _ _ _ => ""
    followupAnswer := fun _ _ => ""
    news := fun _ => [] }

/-- A model that plans three lines: an acknowledgment and two questions. -/
def planOracle : Oracle :=
  { classify := fun _ => "Retirement Planning"
    plan := fun _ _ => "Ack\nQ1\nQ2"
    suggest := fun _ _ _ => ""
    followupAnswer := fun _ _ => ""
    news := fun _ => [] }

/-- Turn 1 of the index-invariant scenario: the goal is set and one
question ("Q2") is queued. -/
def cexStep1 : StepResult :=
  (step cexOracle initialState "retire").getD dfltResult

/-- Turn 2 of the index-invariant scenario: the single queued question is
answered, the conversation completes, suggestions are delivered and the
questions list is cleared while the index stays at 1. -/
def cexStep2 : StepResult :=
  (step cexOracle cexStep1.state "ans").getD dfltResult

/-- Turn 1 of the empty-question-generation scenario: the rephrase request
is emitted but the goal is left set. -/
def c3Step1 : StepResult :=
  (step emptyPlanOracle initialState "save for a house").getD dfltResult

/-- Turn 2 of the empty-question-generation scenario: the rephrased goal
matches no stage. -/
def c3Step2 : StepResult :=
  (step emptyPlanOracle c3Step1.state "a rephrased goal").getD dfltResult

/-- The turn taken with an empty classification result. -/
def c4Step : StepResult :=
  (step emptyClassifyOracle initialState "save money").getD dfltResult

/-- The turn taken with a General Inquiry classification. -/
def c9Step : StepResult :=
  (step giOracle initialState "hello").getD dfltResult

/-- A completed conversation whose suggestion synthesis produced nothing. -/
def emptySuggestionsState : SessionState :=
  { initialState with goal := some "g", conversation_complete := true }

/-- The turn taken from `emptySuggestionsState`: synthesis re-runs. -/
def c10Step : StepResult :=
  (step cexOracle emptySuggestionsState "more").getD dfltResult

/-! ## Theorems -/

/-- The loop of `parse_unique_suggestions` is the amended pipeline:
filter-and-clean each line, then deduplicate first-wins, for any starting
set of seen keys. -/
theorem pusGo_eq_dedup (lines : List String) :
    ∀ seen, pusGo lines seen = dedupFirstWins seen (lines.filterMap parseLineAmended) := by
  induction lines with
  | nil => intro _; rfl
  | cons line rest ih =>
    intro seen
    by_cases hc : lineHasColon line = true
    · by_cases hk : pyLower (cleanTitle (splitFirstColon line).1) = ""
      · simp [pusGo, parseLineAmended, hc, hk, ih]
      · by_cases hm : pyLower (cleanTitle (splitFirstColon line).1) ∈ seen
        · simp [pusGo, parseLineAmended, dedupFirstWins, hc, hk, hm, ih]
        · simp [pusGo, parseLineAmended, dedupFirstWins, hc, hk, hm, ih]
    · simp [pusGo, parseLineAmended, hc, ih]

/-- Claim C1 (counterexample): the parsing pipeline exactly as the claim
words it keeps the colon line ": x" as an entry with an empty title, but
`parse_unique_suggestions` drops it, so the claim's description of the
code is not exact. -/
theorem C1_counterexample :
    parse_unique_suggestions ": x" = [] ∧
    parseSuggestionsClaim ": x" = [{ title := "", explanation := " x" }] :=
  ⟨rfl, rfl⟩

/-- Claim C1 (amended): suggestion parsing splits the text into lines,
keeps only lines containing a colon, takes the ordinal-stripped and
whitespace-trimmed part before the first colon as the title and the
whitespace-trimmed rest as the explanation, drops lines whose cleaned
title is empty, deduplicates titles case-insensitively with the first
occurrence winning, and preserves encounter order; the stated concrete
input yields exactly the titles "Save More" and "Invest", in order. -/
theorem C1_parse_pipeline :
    (∀ text, parse_unique_suggestions text = parseSuggestionsAmended text) ∧
    parse_unique_suggestions
        "1. Save More: Cut costs\n2. save more: duplicate\n3. Invest: Index funds"
      = [{ title := "Save More", explanation := "Cut costs" },
         { title := "Invest", explanation := "Index funds" }] :=
  ⟨fun text => pusGo_eq_dedup (pySplit '\n' text) [], by decide⟩

/-- Claim C1 (witness): the code parser and the amended pipeline agree on
a concrete input. -/
theorem C1_witness :
    parse_unique_suggestions "1. A: b\nno colon\n2. a: c" =
      parseSuggestionsAmended "1. A: b\nno colon\n2. a: c" :=
  C1_parse_pipeline.1 "1. A: b\nno colon\n2. a: c"

/-- Claim C7: the static reference lookup is a pure function that returns
exactly the three fixed loan titles for "Debt Management", exactly two
deposit options for "Saving/Investing", and no data for every other
intent. -/
theorem C7_static_lookup :
    ((get_static_bank_info "Debt Management").map fun i => i.options.map BankOption.title)
        = some ["Personal Loan", "Home Loan", "Car Loan"] ∧
    ((get_static_bank_info "Saving/Investing").map fun i => i.options.length) = some 2 ∧
    ∀ intent, intent ≠ "Debt Management" → intent ≠ "Saving/Investing" →
      get_static_bank_info intent = none := by
  refine ⟨rfl, rfl, ?_⟩
  intro intent h1 h2
  simp [get_static_bank_info, h1, h2]

/-- Claim C7 (witness): an intent outside the two keyed ones yields no
reference data. -/
theorem C7_witness : get_static_bank_info "Budgeting/Expense Control" = none :=
  C7_static_lookup.2.2 "Budgeting/Expense Control" (by decide) (by decide)

/-- Every successful stage-1 turn fires exactly the goal-setting stage. -/
theorem stage1_fired (o : Oracle) (s : SessionState) (input : String) (r : StepResult)
    (h : stage1 o s input = some r) : r.fired = [Stage.goalSetting] := by
  simp only [stage1] at h
  repeat' split at h
  all_goals first
    | exact Option.noConfusion h
    | (injection h with h; subst h; rfl)

/-- Stage 1 never changes the completion flag. -/
theorem stage1_complete (o : Oracle) (s : SessionState) (input : String) (r : StepResult)
    (h : stage1 o s input = some r) :
    r.state.conversation_complete = s.conversation_complete := by
  simp only [stage1] at h
  repeat' split at h
  all_goals first
    | exact Option.noConfusion h
    | (injection h with h; subst h; rfl)

/-- Stages 3 and 4 never change the completion flag. -/
theorem stage34_complete (o : Oracle) (s : SessionState) (input : String) (fired : List Stage) :
    (stage34 o s input fired).state.conversation_complete = s.conversation_complete := by
  unfold stage34
  split
  · rfl
  · split
    · rfl
    · rfl

/-- The step of a turn whose classification contains "Out of Domain". -/
theorem step_ood_eq (o : Oracle) (s : SessionState) (input : String)
    (hg : isFalsy s.goal = true)
    (hood : strContains (o.classify input) "Out of Domain" = true) :
    step o s input = some
      { state := { s with goal := none
                          broad_intent := some (o.classify input)
                          messages := s.messages ++
                            [{ role := "user", content := input },
                             { role := "assistant", content := oodMessage }]
                          current_question_index := 0 }
        fired := [Stage.goalSetting] } := by
  simp [step, stage1, hg, hood]

/-- The step of a turn whose classification contains "General Inquiry"
but not "Out of Domain". -/
theorem step_gi_eq (o : Oracle) (s : SessionState) (input : String)
    (hg : isFalsy s.goal = true)
    (hood : strContains (o.classify input) "Out of Domain" = false)
    (hgi : strContains (o.classify input) "General Inquiry" = true) :
    step o s input = some
      { state := { s with goal := none
                          broad_intent := some (o.classify input)
                          messages := s.messages ++
                            [{ role := "user", content := input },
                             { role := "assistant", content := giMessage }]
                          current_question_index := 0 }
        fired := [Stage.goalSetting] } := by
  simp [step, stage1, hg, hood, hgi]

/-- The step of a turn routed to the question planner whose parsed line
list is non-empty. -/
theorem step_planner_eq (o : Oracle) (s : SessionState) (input : String)
    (hg : isFalsy s.goal = true)
    (hood : strContains (o.classify input) "Out of Domain" = false)
    (hgi : strContains (o.classify input) "General Inquiry" = false)
    (q0 : String) (rest : List String)
    (hlines : planLines (o.plan input (o.classify input)) = q0 :: rest) :
    step o s input = some
      { state := { s with goal := some input
                          broad_intent := some (o.classify input)
                          questions := rest
                          messages := s.messages ++
                            [{ role := "user", content := input },
                             { role := "assistant", content := q0 }]
                          current_question_index := 0 }
        fired := [Stage.goalSetting] } := by
  have hne : (o.plan input (o.classify input) != "") = true := by
    rw [bne_iff_ne]
    intro hq
    rw [hq] at hlines
    exact List.noConfusion hlines
  simp [step, stage1, hg, hood, hgi, hne, hlines]

/-- The step of a turn routed to the question planner whose response is
empty: the rephrase request is emitted and the goal stays set. -/
theorem step_rephrase_eq (o : Oracle) (s : SessionState) (input : String)
    (hg : isFalsy s.goal = true)
    (hood : strContains (o.classify input) "Out of Domain" = false)
    (hgi : strContains (o.classify input) "General Inquiry" = false)
    (hempty : o.plan input (o.classify input) = "") :
    step o s input = some
      { state := { s with goal := some input
                          broad_intent := some (o.classify input)
                          messages := s.messages ++
                            [{ role := "user", content := input },
                             { role := "assistant", content := rephraseMessage }]
                          current_question_index := 0 }
        fired := [Stage.goalSetting] } := by
  simp [step, stage1, hg, hood, hgi, hempty]

/-- The step of a turn routed to the question planner that raises: the
response is non-empty but every line is whitespace. -/
theorem step_planner_none (o : Oracle) (s : SessionState) (input : String)
    (hg : isFalsy s.goal = true)
    (hood : strContains (o.classify input) "Out of Domain" = false)
    (hgi : strContains (o.classify input) "General Inquiry" = false)
    (hne : o.plan input (o.classify input) ≠ "")
    (hnil : planLines (o.plan input (o.classify input)) = []) :
    step o s input = none := by
  simp [step, stage1, hg, hood, hgi, hne, hnil]

/-- Claim C5: for every goal input whose classification contains "Out of
Domain" (resp. otherwise contains "General Inquiry"), the turn emits the
corresponding fixed message, clears the goal, and leaves the conversation
awaiting a goal; and any state with no goal routes the next utterance to
the goal-setting stage. -/
theorem C5_control_branches (o : Oracle) (s : SessionState) (input : String)
    (hg : isFalsy s.goal = true) :
    (strContains (o.classify input) "Out of Domain" = true →
       step o s input = some
         { state := { s with goal := none
                             broad_intent := some (o.classify input)
                             messages := s.messages ++
                               [{ role := "user", content := input },
                                { role := "assistant", content := oodMessage }]
                             current_question_index := 0 }
           fired := [Stage.goalSetting] }) ∧
    (strContains (o.classify input) "Out of Domain" = false →
     strContains (o.classify input) "General Inquiry" = true →
       step o s input = some
         { state := { s with goal := none
                             broad_intent := some (o.classify input)
                             messages := s.messages ++
                               [{ role := "user", content := input },
                                { role := "assistant", content := giMessage }]
                             current_question_index := 0 }
           fired := [Stage.goalSetting] }) ∧
    (∀ (s2 : SessionState) (o2 : Oracle) (input2 : String) (r2 : StepResult),
       s2.goal = none → step o2 s2 input2 = some r2 → r2.fired = [Stage.goalSetting]) := by
  refine ⟨fun hood => step_ood_eq o s input hg hood,
          fun hood hgi => step_gi_eq o s input hg hood hgi, ?_⟩
  intro s2 o2 input2 r2 hnone h2
  simp only [step] at h2
  rw [if_pos] at h2
  · exact stage1_fired _ _ _ _ h2
  · simp [isFalsy, hnone]

/-- Claim C5 (witness): an Out of Domain classification at the initial
state produces exactly the decline turn. -/
theorem C5_witness :
    step oodOracle initialState "how to cook pasta" = some
      { state := { initialState with
                     goal := none
                     broad_intent := some "Out of Domain"
                     messages := [{ role := "user", content := "how to cook pasta" },
                                  { role := "assistant", content := oodMessage }]
                     current_question_index := 0 }
        fired := [Stage.goalSetting] } :=
  (C5_control_branches oodOracle initialState "how to cook pasta" rfl).1 rfl

/-- Claim C6: for every question-planner response with at least one
non-empty trimmed line, the first line is emitted as the assistant message
and exactly N-1 entries remain in the question queue, where N is the
number of non-empty trimmed lines. -/
theorem C6_question_queue (o : Oracle) (s : SessionState) (input : String)
    (hg : isFalsy s.goal = true)
    (hood : strContains (o.classify input) "Out of Domain" = false)
    (hgi : strContains (o.classify input) "General Inquiry" = false)
    (q0 : String) (rest : List String)
    (hlines : planLines (o.plan input (o.classify input)) = q0 :: rest) :
    step o s input = some
      { state := { s with goal := some input
                          broad_intent := some (o.classify input)
                          questions := rest
                          messages := s.messages ++
                            [{ role := "user", content := input },
                             { role := "assistant", content := q0 }]
                          current_question_index := 0 }
        fired := [Stage.goalSetting] } ∧
    rest.length = (planLines (o.plan input (o.classify input))).length - 1 := by
  refine ⟨step_planner_eq o s input hg hood hgi q0 rest hlines, ?_⟩
  rw [hlines]
  simp

/-- Claim C6 (witness): a three-line planner response at the initial state
emits the first line and queues the remaining two. -/
theorem C6_witness :
    step planOracle initialState "retire rich" = some
      { state := { initialState with
                     goal := some "retire rich"
                     broad_intent := some "Retirement Planning"
                     questions := ["Q1", "Q2"]
                     messages := [{ role := "user", content := "retire rich" },
                                  { role := "assistant", content := "Ack" }]
                     current_question_index := 0 }
        fired := [Stage.goalSetting] } ∧
    (["Q1", "Q2"] : List String).length =
      (planLines (planOracle.plan "retire rich" (planOracle.classify "retire rich"))).length - 1 :=
  C6_question_queue planOracle initialState "retire rich" rfl rfl rfl "Ack" ["Q1", "Q2"] rfl

/-- Claim C9: on an Out of Domain or General Inquiry classification,
`broad_intent` is set to the raw classifier output and is not cleared
along with the goal; of the conversation fields only the goal is reset
(questions, answers, suggestions, the completion flag and the question
index are untouched). -/
theorem C9_stale_intent (o : Oracle) (s : SessionState) (input : String) (r : StepResult)
    (hg : isFalsy s.goal = true)
    (hidx : s.current_question_index = 0)
    (hbranch : strContains (o.classify input) "Out of Domain" = true ∨
               strContains (o.classify input) "General Inquiry" = true)
    (hstep : step o s input = some r) :
    r.state.broad_intent = some (o.classify input) ∧
    r.state.goal = none ∧
    r.state.questions = s.questions ∧
    r.state.answers = s.answers ∧
    r.state.suggestions = s.suggestions ∧
    r.state.conversation_complete = s.conversation_complete ∧
    r.state.current_question_index = s.current_question_index := by
  rcases hood : strContains (o.classify input) "Out of Domain" with _ | _
  · have hgi : strContains (o.classify input) "General Inquiry" = true := by
      rcases hbranch with h | h
      · rw [hood] at h; exact Bool.noConfusion h
      · exact h
    rw [step_gi_eq o s input hg hood hgi] at hstep
    injection hstep with hstep
    subst hstep
    exact ⟨rfl, rfl, rfl, rfl, rfl, rfl, hidx.symm⟩
  · rw [step_ood_eq o s input hg hood] at hstep
    injection hstep with hstep
    subst hstep
    exact ⟨rfl, rfl, rfl, rfl, rfl, rfl, hidx.symm⟩

/-- Claim C9 (witness): a General Inquiry greeting at the initial state
leaves the raw classifier output in `broad_intent` while the goal is
cleared. -/
theorem C9_witness :
    c9Step.state.broad_intent = some (giOracle.classify "hello") ∧
    c9Step.state.goal = none ∧
    c9Step.state.questions = initialState.questions ∧
    c9Step.state.answers = initialState.answers ∧
    c9Step.state.suggestions = initialState.suggestions ∧
    c9Step.state.conversation_complete = initialState.conversation_complete ∧
    c9Step.state.current_question_index = initialState.current_question_index :=
  C9_stale_intent giOracle initialState "hello" c9Step rfl rfl (Or.inr rfl) rfl

/-- Claim C3 (code evaluation at the failing input): on an empty planner
response the rephrase request is emitted but the goal is left set, so the
following utterance matches no stage: nothing fires and no assistant
message is produced. -/
theorem C3_stuck_after_empty_plan :
    c3Step1.state.goal = some "save for a house" ∧
    c3Step1.state.messages =
      [{ role := "user", content := "save for a house" },
       { role := "assistant", content := rephraseMessage }] ∧
    c3Step2.fired = [] ∧
    c3Step2.state =
      { c3Step1.state with
          messages := c3Step1.state.messages ++
            [{ role := "user", content := "a rephrased goal" }] } :=
  ⟨rfl, rfl, rfl, rfl⟩

/-- Claim C4 (counterexample): with the classification gateway failing
(empty classifier output), the turn does mutate conversation state: the
goal is stored, the empty string becomes the broad intent, and questions
are queued, contradicting the claim that state is unchanged. -/
theorem C4_counterexample :
    get_nova_response (Except.error "gateway failure") = "" ∧
    c4Step.state.goal = some "save money" ∧
    c4Step.state.broad_intent = some "" ∧
    c4Step.state.questions = ["Q2"] :=
  ⟨rfl, rfl, rfl, rfl⟩

/-- Claim C4 (amended): when the gateway call fails the classifier wrapper
returns empty text, and the controller does not special-case it: the goal
stays set to the utterance, the empty string is stored as the broad
intent, and the turn proceeds to the question-planning branch with the
empty intent, queueing the planner lines as usual. -/
theorem C4_empty_classification :
    (∀ e, get_nova_response (Except.error e) = "") ∧
    ∀ (o : Oracle) (s : SessionState) (input : String) (r : StepResult),
      isFalsy s.goal = true → o.classify input = "" → step o s input = some r →
      r.state.goal = some input ∧
      r.state.broad_intent = some "" ∧
      r.fired = [Stage.goalSetting] ∧
      (∀ q0 rest, planLines (o.plan input "") = q0 :: rest →
         r.state.questions = rest ∧
         r.state.messages = s.messages ++
           [{ role := "user", content := input },
            { role := "assistant", content := q0 }]) := by
  refine ⟨fun _ => rfl, ?_⟩
  intro o s input r hg hc hstep
  have hood : strContains (o.classify input) "Out of Domain" = false := by rw [hc]; rfl
  have hgi : strContains (o.classify input) "General Inquiry" = false := by rw [hc]; rfl
  by_cases hq : o.plan input (o.classify input) = ""
  · rw [step_rephrase_eq o s input hg hood hgi hq] at hstep
    injection hstep with hstep
    subst hstep
    refine ⟨rfl, by rw [hc], rfl, ?_⟩
    intro q0 rest hlines
    rw [hc] at hq
    rw [hq] at hlines
    exact List.noConfusion hlines
  · rcases hlines2 : planLines (o.plan input (o.classify input)) with _ | ⟨q0', rest'⟩
    · rw [step_planner_none o s input hg hood hgi hq hlines2] at hstep
      exact Option.noConfusion hstep
    · rw [step_planner_eq o s input hg hood hgi q0' rest' hlines2] at hstep
      injection hstep with hstep
      subst hstep
      rw [hc] at hlines2
      refine ⟨rfl, by rw [hc], rfl, ?_⟩
      intro q0 rest hlines
      rw [hlines2] at hlines
      injection hlines with h1 h2
      subst h1
      subst h2
      exact ⟨rfl, rfl⟩

/-- Claim C4 (witness): a concrete empty-classification turn keeps the
goal, stores the empty intent and fires the goal-setting stage. -/
theorem C4_witness :
    c4Step.state.goal = some "save money" ∧
    c4Step.state.broad_intent = some "" ∧
    c4Step.fired = [Stage.goalSetting] :=
  (fun h => ⟨h.1, h.2.1, h.2.2.1⟩)
    (C4_empty_classification.2 emptyClassifyOracle initialState "save money" c4Step rfl rfl rfl)

/-- States whose question index is 0 satisfy the index invariant. -/
theorem IndexInv_of_zero (s : SessionState) (h : s.current_question_index = 0) :
    IndexInv s := by
  intro _
  rcases hq : s.questions with _ | ⟨a, l⟩
  · exact Or.inl ⟨rfl, h⟩
  · right
    rw [h]
    exact Nat.succ_pos _

/-- All successful stage-1 turns reset the index to 0, hence preserve the
index invariant. -/
theorem stage1_IndexInv (o : Oracle) (s : SessionState) (input : String) (r : StepResult)
    (h : stage1 o s input = some r) : IndexInv r.state := by
  simp only [stage1] at h
  repeat' split at h
  all_goals first
    | exact Option.noConfusion h
    | (injection h with h; subst h; exact IndexInv_of_zero _ rfl)

/-- Stages 3 and 4 preserve the index invariant (their guards require a
completed conversation, in which the invariant is vacuous). -/
theorem stage34_IndexInv (o : Oracle) (s : SessionState) (input : String) (fired : List Stage)
    (hs : IndexInv s) : IndexInv (stage34 o s input fired).state := by
  unfold stage34
  split
  · next hcond =>
      exact fun hc =>
        Bool.noConfusion ((hc : s.conversation_complete = false).symm.trans hcond.1)
  · split
    · next hcond =>
        exact fun hc =>
          Bool.noConfusion ((hc : s.conversation_complete = false).symm.trans hcond.1)
    · exact hs

/-- Every successful chat turn preserves the index invariant. -/
theorem step_IndexInv (o : Oracle) (s : SessionState) (input : String) (r : StepResult)
    (hs : IndexInv s) (h : step o s input = some r) : IndexInv r.state := by
  simp only [step] at h
  split at h
  · exact stage1_IndexInv _ _ _ _ h
  · split at h
    · split at h
      · next hlt =>
          injection h with h
          subst h
          exact fun _ => Or.inr hlt
      · injection h with h
        subst h
        exact stage34_IndexInv _ _ _ _ (fun hc => Bool.noConfusion (hc : true = false))
    · injection h with h
      subst h
      exact stage34_IndexInv _ _ _ _ hs

/-- The index invariant holds in every reachable state. -/
theorem reachable_IndexInv (s : SessionState) (h : Reachable s) : IndexInv s := by
  induction h with
  | init => exact fun _ => Or.inl ⟨rfl, rfl⟩
  | chat o input r hr hstep ih => exact step_IndexInv o _ input r ih hstep
  | reset hr ih => exact fun _ => Or.inl ⟨rfl, rfl⟩

/-- Once the conversation is complete, no chat turn unsets the flag. -/
theorem step_complete_mono (o : Oracle) (s : SessionState) (input : String) (r : StepResult)
    (h : step o s input = some r) (hc : s.conversation_complete = true) :
    r.state.conversation_complete = true := by
  simp only [step] at h
  split at h
  · exact (stage1_complete _ _ _ _ h).trans hc
  · split at h
    · next hcond =>
        exact Bool.noConfusion ((hcond.1 : s.conversation_complete = false).symm.trans hc)
    · injection h with h
      subst h
      exact (stage34_complete _ _ _ _).trans hc

/-- Claim C2 (counterexample): a reachable state violates the claimed
invariant `currentQuestionIndex ≤ len(questions)`: after suggestions are
delivered the questions list is cleared while the index stays at 1. -/
theorem C2_counterexample :
    Reachable cexStep2.state ∧
    ¬ cexStep2.state.current_question_index ≤ cexStep2.state.questions.length := by
  constructor
  · have h1 : step cexOracle initialState "retire" = some cexStep1 := rfl
    have h2 : step cexOracle cexStep1.state "ans" = some cexStep2 := rfl
    exact Reachable.chat cexOracle "ans" cexStep2
      (Reachable.chat cexOracle "retire" cexStep1 Reachable.init h1) h2
  · decide

/-- Claim C2 (amended): in every reachable state, while the conversation
is not complete the question index never exceeds the number of queued
questions (and is strictly below it when questions are queued); and once
`conversation_complete` is true a chat turn never unsets it, so it is set
at most once per conversation cycle.  After suggestions are delivered the
questions list is cleared while the index keeps its value, so in completed
states the index may exceed the (now zero) length. -/
theorem C2_index_invariant (s : SessionState) (h : Reachable s) :
    (s.conversation_complete = false →
       s.current_question_index ≤ s.questions.length) ∧
    (s.conversation_complete = false → s.questions ≠ [] →
       s.current_question_index < s.questions.length) ∧
    (∀ o input r, step o s input = some r → s.conversation_complete = true →
       r.state.conversation_complete = true) := by
  refine ⟨?_, ?_, fun o input r hstep hc => step_complete_mono o s input r hstep hc⟩
  · intro hc
    rcases reachable_IndexInv s h hc with ⟨hq, hi⟩ | hlt
    · rw [hi, hq]
      exact Nat.le_refl 0
    · exact Nat.le_of_lt hlt
  · intro hc hne
    rcases reachable_IndexInv s h hc with ⟨hq, _⟩ | hlt
    · exact absurd hq hne
    · exact hlt

/-- Claim C2 (witness): the invariant at the initial state. -/
theorem C2_witness :
    initialState.current_question_index ≤ initialState.questions.length :=
  (C2_index_invariant initialState Reachable.init).1 rfl

/-- The follow-up stage fires after stages 3/4 only if it was already
fired or the entry state has suggestions. -/
theorem stage34_followup_mem (o : Oracle) (s : SessionState) (input : String)
    (fired : List Stage)
    (h : Stage.followupQA ∈ (stage34 o s input fired).fired) :
    Stage.followupQA ∈ fired ∨ s.suggestions ≠ [] := by
  unfold stage34 at h
  split at h
  · simp at h
    exact Or.inl h
  · split at h
    · next hcond => exact Or.inr hcond.2
    · exact Or.inl h

/-- A completed conversation with no suggestions re-runs synthesis. -/
theorem stage34_resynthesis (o : Oracle) (s : SessionState) (input : String)
    (fired : List Stage)
    (hc : s.conversation_complete = true) (hsug : s.suggestions = []) :
    (stage34 o s input fired).fired = fired ++ [Stage.suggesting] := by
  unfold stage34
  rw [if_pos ⟨hc, hsug⟩]

/-- Claim C10: a turn fires the follow-up stage only when the entry state
already holds at least one suggestion; and from a completed conversation
with no suggestions and a set goal, the turn re-runs suggestion synthesis
and does not fire the follow-up stage. -/
theorem C10_followup_guard (o : Oracle) (s : SessionState) (input : String) (r : StepResult)
    (hstep : step o s input = some r) :
    (Stage.followupQA ∈ r.fired → s.suggestions ≠ []) ∧
    (s.conversation_complete = true → s.suggestions = [] → isFalsy s.goal = false →
       Stage.suggesting ∈ r.fired ∧ Stage.followupQA ∉ r.fired) := by
  simp only [step] at hstep
  split at hstep
  · next hg =>
      constructor
      · intro hmem
        rw [stage1_fired _ _ _ _ hstep] at hmem
        simp at hmem
      · intro _ _ hgoal
        exact Bool.noConfusion (hgoal.symm.trans (hg : isFalsy s.goal = true))
  · split at hstep
    · next h2 =>
        split at hstep
        · injection hstep with hstep
          subst hstep
          constructor
          · intro hmem
            simp at hmem
          · intro hc _ _
            exact Bool.noConfusion ((h2.1 : s.conversation_complete = false).symm.trans hc)
        · injection hstep with hstep
          subst hstep
          constructor
          · intro hmem
            rcases stage34_followup_mem _ _ _ _ hmem with hmem | hmem
            · simp at hmem
            · exact hmem
          · intro hc _ _
            exact Bool.noConfusion ((h2.1 : s.conversation_complete = false).symm.trans hc)
    · injection hstep with hstep
      subst hstep
      constructor
      · intro hmem
        rcases stage34_followup_mem _ _ _ _ hmem with hmem | hmem
        · simp at hmem
        · exact hmem
      · intro hc hsug _
        rw [stage34_resynthesis o
              { s with messages := s.messages ++ [{ role := "user", content := input }] }
              input [] hc hsug]
        simp

/-- Claim C10 (witness): from a completed conversation with no
suggestions, a concrete turn fires synthesis and not the follow-up. -/
theorem C10_witness :
    Stage.suggesting ∈ c10Step.fired ∧ Stage.followupQA ∉ c10Step.fired :=
  (C10_followup_guard cexOracle emptySuggestionsState "more" c10Step rfl).2 rfl rfl rfl

/-- Claim C8: from every conversation state, the reset command returns the
conversation to the defaults: empty messages, questions, answers and
suggestions, no goal, and the next utterance is treated as a new goal. -/
theorem C8_reset (s : SessionState) :
    resetConversation s = initialState ∧
    (resetConversation s).messages = [] ∧
    (resetConversation s).questions = [] ∧
    (resetConversation s).answers = [] ∧
    (resetConversation s).suggestions = [] ∧
    isFalsy (resetConversation s).goal = true ∧
    ∀ (o : Oracle) (input : String) (r : StepResult),
      step o (resetConversation s) input = some r → r.fired = [Stage.goalSetting] := by
  refine ⟨rfl, rfl, rfl, rfl, rfl, rfl, ?_⟩
  intro o input r h
  simp [step, resetConversation, initialState, isFalsy] at h
  exact stage1_fired _ _ _ _ h

/-- Claim C8 (witness): a turn taken right after a reset fires the
goal-setting stage. -/
theorem C8_witness :
    ((step oodOracle (resetConversation emptySuggestionsState) "hi").getD dfltResult).fired
      = [Stage.goalSetting] := by
  refine (C8_reset emptySuggestionsState).2.2.2.2.2.2 oodOracle "hi" _ ?_
  rfl

end Monexa
